import Mathlib

/-!
Shallow embedding of the Miyo discord bot's pagination engine
(src/pagination.py, src/main.py, src/menu.py).

Page numbers are embedded as `Int` (Python ints), message sends and edits
as an explicit `Effect` list, and the five navigation buttons as a record
of `disabled` flags.  Fallible Python code (raised exceptions) is embedded
with `Except`.
-/

/-- The `disabled` flags of the five button objects of `PaginationView`
(go_to_first_page, go_to_previous_page, stop_pages, go_to_next_page,
go_to_last_page). -/
structure Buttons where
  first : Bool
  prev : Bool
  stopBtn : Bool
  next : Bool
  last : Bool
deriving DecidableEq, Repr

/-- Identifiers for the five controls, used for the attached-children list. -/
inductive ControlId where
  | first
  | prev
  | stopBtn
  | next
  | last
deriving DecidableEq, Repr

/-- PaginationView.fill_items: which controls get attached, in order
(first/last only when not compact, nothing when the source is not
paginating). -/
def fill_items (isPaginating compact : Bool) : List ControlId :=
  if isPaginating then
    (if compact then [] else [ControlId.first])
      ++ [ControlId.prev, ControlId.stopBtn, ControlId.next]
      ++ (if compact then [] else [ControlId.last])
  else []

/-- Set one control's disabled flag to true (child.disabled = True). -/
def setDisabled (b : Buttons) (c : ControlId) : Buttons :=
  match c with
  | ControlId.first => { b with first := true }
  | ControlId.prev => { b with prev := true }
  | ControlId.stopBtn => { b with stopBtn := true }
  | ControlId.next => { b with next := true }
  | ControlId.last => { b with last := true }

/-- Read one control's disabled flag. -/
def getDisabled (b : Buttons) : ControlId → Bool
  | ControlId.first => b.first
  | ControlId.prev => b.prev
  | ControlId.stopBtn => b.stopBtn
  | ControlId.next => b.next
  | ControlId.last => b.last

/-- The loop `for child in self.children: child.disabled = True`. -/
def disableChildren : List ControlId → Buttons → Buttons
  | [], b => b
  | c :: cs, b => disableChildren cs (setDisabled b c)

/-- PaginationView._update_labels from src/pagination.py lines 64-85.
`maxPages` is `source.get_max_pages()` (`none` embeds Python `None`). -/
def updateLabels (compact : Bool) (maxPages : Option Int) (b : Buttons) (p : Int) : Buttons :=
  let b1 := { b with first := decide (p = 0) }
  if compact then
    { b1 with
      next := match maxPages with
              | none => false
              | some m => decide (p + 1 ≥ m),
      prev := decide (p = 0) }
  else
    let b2 := { b1 with next := false, prev := false }
    match maxPages with
    | none => b2
    | some m =>
      let b3 := { b2 with last := decide (p + 1 ≥ m) }
      let b4 := if p + 1 ≥ m then { b3 with next := true } else b3
      if p = 0 then { b4 with prev := true, first := true } else b4

/-- PaginationView._update_labels from src/main.py lines 80-86.  When not
compact it evaluates `(page_number + 1) >= max_pages` without a `None`
check, so an unknown page count raises a TypeError, embedded as
`Except.error ()`. -/
def updateLabelsMain (compact : Bool) (maxPages : Option Int) (b : Buttons) (p : Int) :
    Except Unit Buttons :=
  let b1 := { b with first := decide (p = 0) }
  let b2 := { b1 with
    next := match maxPages with
            | none => false
            | some m => decide (p + 1 ≥ m) }
  let b3 := { b2 with prev := decide (p = 0) }
  if compact then Except.ok b3
  else
    match maxPages with
    | none => Except.error ()
    | some m => Except.ok { b3 with last := decide (p + 1 ≥ m) }

/-- Error raised by the page source for a page request outside bounds. -/
inductive PageError where
  | outOfRange
deriving DecidableEq, Repr

/-- Modelled from the spec: `discord.ext.menus.ListPageSource.get_page` is
library code not under src/ (src/ only has the `GuildMenuPageSource`
subclass and the `PaginationView` callers).  Per spec section 4.1 it fails
with `OutOfRange` if the page number is negative or
`pageNumber * perPage >= len(items)` while `len(items) > 0`, and for an
empty collection page 0 returns an empty slice. -/
def ListPageSource.get_page (items : List α) (per_page : Nat) (n : Int) :
    Except PageError (List α) :=
  if n < 0 ∨ ((items.length : Int) ≤ n * per_page ∧ 0 < items.length) then
    Except.error PageError.outOfRange
  else
    Except.ok ((items.drop (n.toNat * per_page)).take per_page)

/-- Modelled from the spec: `discord.ext.menus.ListPageSource`'s page count
is library code not under src/; per spec section 4.1 it is
`ceil(len(items)/perPage)`, computed here as `(n + perPage - 1) / perPage`. -/
def ListPageSource.get_max_pages (items : List α) (per_page : Nat) : Nat :=
  (items.length + per_page - 1) / per_page

/-- Python string rendering of the invite field inside an f-string: a null
invite renders as the literal text `None`. -/
def pyShowInvite : Option String → String
  | some s => s
  | none => "None"

/-- The Python expression `"\n\n".join(lines)`. -/
def joinBlank : List String → String
  | [] => ""
  | [x] => x
  | x :: y :: xs => x ++ "\n\n" ++ joinBlank (y :: xs)

/-- GuildMenuPageSource.format_page from src/main.py lines 209-215: one
line `f"{entry[0].name}: {entry[1]}"` per entry, joined with a blank line;
a falsy (empty) join falls back to the literal `"No guilds were found."`.
Entries are embedded as (guild name, invite field). -/
def format_page (entries : List (String × Option String)) : String :=
  let lines := entries.map (fun e => e.1 ++ ": " ++ pyShowInvite e.2)
  let joined := joinBlank lines
  if joined = "" then "No guilds were found." else joined

/-- GuildMenuPageSource.format_page from src/menu.py lines 12-18: it builds
`entries_embed` but then evaluates `"\n\n".join(entries)` over the raw
entry tuples (and `entry[1].invite[0]` over a non-object field), so any
non-empty slice raises a TypeError/AttributeError, embedded as
`Except.error ()`; the empty slice joins to the falsy `""` and falls back
to the literal string. -/
def menuFormatPage (entries : List (String × Option String)) : Except Unit String :=
  match entries with
  | [] => Except.ok "No guilds were found."
  | _ => Except.error ()

/-- The servers command (src/main.py lines 222-229): the invite field of an
entry is `invites[0].url if invites else "No invite available"` — the null
substitution happens here, before format_page ever runs. -/
def serversEntries (gs : List (String × List String)) : List (String × Option String) :=
  gs.map (fun g =>
    (g.1, some (match g.2 with
                | [] => "No invite available"
                | u :: _ => u)))

/-- An embed object; only the description matters to this program's
formatters. -/
structure EmbedObj where
  description : String
deriving DecidableEq, Repr

/-- The keyword-argument dictionary built by `_get_kwargs_from_page` and
passed to a send or edit.  A field is `none` when the key is absent,
`some none` when the key is present with value `None`. -/
structure Kwargs where
  content : Option (Option String) := none
  embedKw : Option (Option EmbedObj) := none
deriving DecidableEq, Repr

/-- Python truthiness of the kwargs dict (`if kwargs:`). -/
def Kwargs.isEmptyK (k : Kwargs) : Bool :=
  k.content.isNone && k.embedKw.isNone

/-- The value space `format_page` can return, matched by type inspection in
`_get_kwargs_from_page`: a dict, a str, an Embed, or anything else. -/
inductive PageValue where
  | dict : Kwargs → PageValue
  | str : String → PageValue
  | embed : EmbedObj → PageValue
  | other : PageValue
deriving DecidableEq, Repr

/-- Whether a `PageValue` is the mapping variant. -/
def PageValue.isDict : PageValue → Bool
  | PageValue.dict _ => true
  | _ => false

/-- PaginationView._get_kwargs_from_page (src/pagination.py lines 41-50):
a dict is returned as is; a str yields `{'content': value, 'embed': None}`;
an Embed yields `{'embed': value, 'content': None}`; anything else yields
the empty dict. -/
def getKwargsFromPage : PageValue → Kwargs
  | PageValue.dict k => k
  | PageValue.str s => { content := some (some s), embedKw := some none }
  | PageValue.embed e => { content := some none, embedKw := some (some e) }
  | PageValue.other => {}

/-- Python `kwargs.setdefault('content', c)`: the key is only added when
absent; a present key keeps its value, even `None`. -/
def setdefaultContent (k : Kwargs) (c : String) : Kwargs :=
  match k.content with
  | none => { k with content := some (some c) }
  | some _ => k

/-- The `if content: kwargs.setdefault('content', content)` step of
`start` (src/pagination.py lines 155-156): a null or empty (falsy) content
is skipped. -/
def applyStartContent (content : Option String) (k : Kwargs) : Kwargs :=
  match content with
  | none => k
  | some c => if c = "" then k else setdefaultContent k c

/-- Observable message-channel operations performed by the view. -/
inductive Effect where
  | ephemeralMsg : String → Effect
  | sendMsg : Kwargs → Effect
  | followupMsg : Kwargs → Effect
  | editMsg : Kwargs → Effect
  | editResponse : Kwargs → Effect
  | editViewOnly : Effect
  | deferResp : Effect
  | deleteOriginalResp : Effect
deriving DecidableEq, Repr

/-- The mutable session state of a `PaginationView`: current page, live
message handle, the buttons' disabled flags, and the library view's
stopped flag. -/
structure ViewState where
  currentPage : Int
  message : Option Nat
  buttons : Buttons
  stopped : Bool
deriving DecidableEq, Repr

/-- The constructor argument `interaction`: either a commands.Context (with
its author id) or a discord.Interaction (with its user id), fixed at
session creation. -/
inductive Invoker where
  | ctxInv : Nat → Invoker
  | interInv : Nat → Invoker
deriving DecidableEq, Repr

/-- The id compared against in interaction_check
(src/pagination.py lines 98-101): `self.interaction.author.id` for a
Context, `self.interaction.user.id` for an Interaction. -/
def predicateId : Invoker → Nat
  | Invoker.ctxInv a => a
  | Invoker.interInv u => u

/-- A page source as seen by the view: `get_max_pages`, `get_page` (which
may raise IndexError, embedded as `Except.error ()`), and `format_page`. -/
structure Source where
  maxPages : Option Int
  getPage : Int → Except Unit (List (String × Option String))
  formatPage : List (String × Option String) → PageValue

/-- PaginationView.show_page (src/pagination.py lines 52-62): fetch the
page, set current_page, build kwargs, refresh labels, then edit the
message or the interaction response when the kwargs dict is truthy.
An IndexError from get_page propagates. -/
def show_page (src : Source) (compact responseDone : Bool) (st : ViewState) (n : Int) :
    Except Unit (ViewState × List Effect) :=
  match src.getPage n with
  | Except.error e => Except.error e
  | Except.ok page =>
    let st1 := { st with currentPage := n }
    let kwargs := getKwargsFromPage (src.formatPage page)
    let st2 := { st1 with buttons := updateLabels compact src.maxPages st1.buttons n }
    if kwargs.isEmptyK then
      Except.ok (st2, [])
    else if responseDone then
      match st2.message with
      | some _ => Except.ok (st2, [Effect.editMsg kwargs])
      | none => Except.ok (st2, [])
    else
      Except.ok (st2, [Effect.editResponse kwargs])

/-- PaginationView.show_checked_page (src/pagination.py lines 87-95): jump
unconditionally when max_pages is None, jump only when
`max_pages > page_number >= 0` otherwise; an IndexError is swallowed. -/
def show_checked_page (src : Source) (compact responseDone : Bool) (st : ViewState) (n : Int) :
    ViewState × List Effect :=
  match src.maxPages with
  | none =>
    match show_page src compact responseDone st n with
    | Except.ok r => r
    | Except.error _ => (st, [])
  | some m =>
    if m > n ∧ n ≥ 0 then
      match show_page src compact responseDone st n with
      | Except.ok r => r
      | Except.error _ => (st, [])
    else (st, [])

/-- PaginationView.interaction_check (src/pagination.py lines 97-107):
allow only the invoker's user id; everyone else (including an absent user)
gets an ephemeral denial and no state change.  Returns (allowed, state,
effects). -/
def interaction_check (inv : Invoker) (st : ViewState) (actingUser : Option Nat) :
    Bool × ViewState × List Effect :=
  match actingUser with
  | some u =>
    if u = predicateId inv then (true, st, [])
    else (false, st, [Effect.ephemeralMsg "This menu is not for you."])
  | none => (false, st, [Effect.ephemeralMsg "This menu is not for you."])

/-- PaginationView.on_timeout (src/pagination.py lines 109-114): when a
live message is recorded, disable every attached child and edit the
message with the view only (no delete); otherwise do nothing. -/
def on_timeout (children : List ControlId) (st : ViewState) : ViewState × List Effect :=
  match st.message with
  | none => (st, [])
  | some _ => ({ st with buttons := disableChildren children st.buttons }, [Effect.editViewOnly])

/-- The stop_pages button callback (src/pagination.py lines 181-186):
defer, delete the original response, then `self.stop()` (the library
`discord.ui.View.stop`, embedded as setting the stopped flag). -/
def stop_pages (st : ViewState) : ViewState × List Effect :=
  ({ st with stopped := true }, [Effect.deferResp, Effect.deleteOriginalResp])

/-- Modelled from the spec: the timeout dispatch of `discord.ui.View` is
library code not under src/; per spec sections 4.2 and 8, a timeout firing
after `stop()` has completed is a no-op (the library cancels the timeout
once the view is stopped), and otherwise it invokes `on_timeout`. -/
def timeoutFires (children : List ControlId) (st : ViewState) : ViewState × List Effect :=
  if st.stopped then (st, []) else on_timeout children st

/-- PaginationView.start (src/pagination.py lines 142-169): the embed
permission check sends the denial — returning only in the Interaction
branch — then the page-0 render is built, labels are refreshed for page 0,
and the message is sent (response / followup / context send), recording
the live message handle. -/
def start (inv : Invoker) (checkEmbeds hasEmbedPerm responseDone : Bool) (src : Source)
    (compact : Bool) (content : Option String) (st : ViewState) :
    Except Unit (ViewState × List Effect) :=
  let denied := checkEmbeds && !hasEmbedPerm
  match inv, denied with
  | Invoker.interInv _, true =>
    Except.ok (st, [Effect.ephemeralMsg "Missing embed permissions."])
  | _, _ =>
    let pre : List Effect :=
      if denied then [Effect.ephemeralMsg "Missing embed permissions."] else []
    match src.getPage 0 with
    | Except.error e => Except.error e
    | Except.ok page =>
      let kwargs := applyStartContent content (getKwargsFromPage (src.formatPage page))
      let st1 := { st with buttons := updateLabels compact src.maxPages st.buttons 0 }
      match inv with
      | Invoker.interInv _ =>
        if !responseDone then
          Except.ok ({ st1 with message := some 0 }, pre ++ [Effect.sendMsg kwargs])
        else
          Except.ok ({ st1 with message := some 0 }, pre ++ [Effect.followupMsg kwargs])
      | Invoker.ctxInv _ =>
        Except.ok ({ st1 with message := some 0 }, pre ++ [Effect.sendMsg kwargs])

/-- Whether an Except value is a success. -/
def isOkE : Except ε α → Bool
  | Except.ok _ => true
  | Except.error _ => false

/-- Whether an effect is a denial with the missing-permissions text. -/
def isPermDenial : Effect → Bool
  | Effect.ephemeralMsg s => s = "Missing embed permissions."
  | _ => false

/-- Whether an effect sends a new visible message carrying the view. -/
def isLiveSend : Effect → Bool
  | Effect.sendMsg _ => true
  | Effect.followupMsg _ => true
  | _ => false

/-- An all-enabled button record, the state of freshly constructed
buttons. -/
def buttons0 : Buttons :=
  { first := false, prev := false, stopBtn := false, next := false, last := false }

/-- The session state right after construction: page 0, no message,
buttons enabled, not stopped. -/
def st0 : ViewState :=
  { currentPage := 0, message := none, buttons := buttons0, stopped := false }

/-- A concrete source with a known page count of 3. -/
def srcK : Source :=
  { maxPages := some 3,
    getPage := fun _ => Except.ok [("Alpha", some "u")],
    formatPage := fun _ => PageValue.str "x" }

/-- A concrete source with an unknown page count. -/
def srcN : Source :=
  { maxPages := none,
    getPage := fun _ => Except.ok [],
    formatPage := fun _ => PageValue.str "x" }

/-- A session state holding a live message handle. -/
def stM : ViewState :=
  { currentPage := 0, message := some 0, buttons := buttons0, stopped := false }

/-- The twelve-item collection of the 12-items/perPage-5 scenario. -/
def items12 : List Nat := [0, 1, 2, 3, 4, 5, 6, 7, 8, 9, 10, 11]

theorem getDisabled_setDisabled_self (b : Buttons) (c : ControlId) :
    getDisabled (setDisabled b c) c = true := by
  cases c <;> rfl

theorem getDisabled_setDisabled_mono (b : Buttons) (c c' : ControlId)
    (h : getDisabled b c = true) : getDisabled (setDisabled b c') c = true := by
  cases c <;> cases c' <;> simp_all [getDisabled, setDisabled]

theorem disableChildren_preserves (l : List ControlId) (b : Buttons) (c : ControlId)
    (h : getDisabled b c = true) : getDisabled (disableChildren l b) c = true := by
  induction l generalizing b with
  | nil => exact h
  | cons x xs ih => exact ih (setDisabled b x) (getDisabled_setDisabled_mono b c x h)

theorem disableChildren_mem (l : List ControlId) (b : Buttons) (c : ControlId)
    (h : c ∈ l) : getDisabled (disableChildren l b) c = true := by
  induction l generalizing b with
  | nil => cases h
  | cons x xs ih =>
    rcases List.mem_cons.mp h with rfl | hmem
    · exact disableChildren_preserves xs (setDisabled b c) c (getDisabled_setDisabled_self b c)
    · exact ih (setDisabled b x) hmem

theorem joinBlank_cons_length (x : String) (xs : List String) :
    x.length ≤ (joinBlank (x :: xs)).length := by
  cases xs with
  | nil => simp [joinBlank]
  | cons y ys =>
    simp only [joinBlank, String.length_append]
    omega

theorem joinBlank_line_ne_empty (e : String × Option String)
    (es : List (String × Option String)) :
    joinBlank ((e :: es).map (fun x => x.1 ++ ": " ++ pyShowInvite x.2)) ≠ "" := by
  intro hcon
  have h1 := joinBlank_cons_length (e.1 ++ ": " ++ pyShowInvite e.2)
    (es.map (fun x => x.1 ++ ": " ++ pyShowInvite x.2))
  rw [List.map_cons] at hcon
  rw [hcon] at h1
  rw [String.length_append, String.length_append] at h1
  have h2 : (2 : Nat) ≤ ": ".length := by decide
  have h3 : "".length = 0 := by decide
  omega

/-- Claim C5 (amended): the enablement computed by
src/pagination.py's `_update_labels` — First is disabled iff the page is
0 always; in compact mode, and in non-compact mode with a known page
count, Previous is disabled iff the page is 0 and Next (and, non-compact,
Last) iff `p + 1 >= pageCount`; in non-compact mode with an unknown page
count Previous and Next are force-enabled and Last keeps its old value —
while src/main.py's `_update_labels` raises in that last configuration. -/
theorem update_labels_characterization (compact : Bool) (mp : Option Int) (b : Buttons)
    (p : Int) :
    (updateLabels compact mp b p =
      if compact then
        { b with first := decide (p = 0), prev := decide (p = 0),
                 next := match mp with
                         | none => false
                         | some m => decide (p + 1 ≥ m) }
      else
        match mp with
        | none => { b with first := decide (p = 0), prev := false, next := false }
        | some m =>
          { b with first := decide (p = 0), prev := decide (p = 0),
                   next := decide (p + 1 ≥ m), last := decide (p + 1 ≥ m) }) ∧
    updateLabelsMain false none b p = Except.error () := by
  obtain ⟨f, pv, sb, nx, ls⟩ := b
  constructor
  · cases compact with
    | true => cases mp <;> simp [updateLabels]
    | false =>
      cases mp with
      | none => simp [updateLabels]
      | some m =>
        simp only [updateLabels]
        by_cases h1 : p + 1 ≥ m <;> by_cases h2 : p = 0
        · simp [eq_true h1, eq_true h2]
        · simp [eq_true h1, eq_false h2]
        · simp [eq_false h1, eq_true h2]
        · simp [eq_false h1, eq_false h2]
  · simp [updateLabelsMain]

/-- Claim C5 counterexample: with an unknown page count in non-compact
mode at page 0, src/pagination.py leaves Previous enabled (the claim
requires it disabled), and src/main.py raises. -/
theorem update_labels_unknown_pages_cex :
    (updateLabels false none buttons0 0).prev = false ∧
    updateLabelsMain false none buttons0 0 = Except.error () :=
  ⟨rfl, rfl⟩

/-- Claim C9 (amended): the two `_update_labels` implementations compute
identical enablement for all five controls whenever the view is compact or
the page count is known. -/
theorem update_labels_equiv_on_known (compact : Bool) (mp : Option Int) (b : Buttons)
    (p : Int) (h : compact = true ∨ mp ≠ none) :
    updateLabelsMain compact mp b p = Except.ok (updateLabels compact mp b p) := by
  obtain ⟨f, pv, sb, nx, ls⟩ := b
  rcases h with rfl | hmp
  · cases mp <;> simp [updateLabels, updateLabelsMain]
  · cases mp with
    | none => exact absurd rfl hmp
    | some m =>
      cases compact with
      | true => simp [updateLabels, updateLabelsMain]
      | false =>
        simp only [updateLabels, updateLabelsMain]
        by_cases h1 : p + 1 ≥ m <;> by_cases h2 : p = 0
        · simp [eq_true h1, eq_true h2]
        · simp [eq_true h1, eq_false h2]
        · simp [eq_false h1, eq_true h2]
        · simp [eq_false h1, eq_false h2]

/-- Claim C9 witness: at a known page count the two implementations agree
on a concrete input. -/
theorem update_labels_equiv_on_known_witness :
    updateLabelsMain false (some 3) buttons0 2 =
      Except.ok (updateLabels false (some 3) buttons0 2) :=
  update_labels_equiv_on_known false (some 3) buttons0 2 (Or.inr (by simp))

/-- Claim C9 counterexample: in non-compact mode with an unknown page
count, src/main.py's `_update_labels` raises while src/pagination.py's
returns an enablement, so the two are not equivalent for every
combination. -/
theorem update_labels_equiv_cex :
    updateLabelsMain false none buttons0 1 = Except.error () ∧
    updateLabels false none buttons0 1 =
      { first := false, prev := false, stopBtn := false, next := false, last := false } :=
  ⟨rfl, rfl⟩

/-- Claim C6 (amended): the guild-listing formatter of src/main.py emits
one line `"{guildName}: {inviteField}"` per entry with a null invite field
rendered as the literal `None` (no substitution), joins lines with a blank
line, and renders the literal `"No guilds were found."` for an empty
slice; the `or "No invite available"` substitution happens in the servers
command before the entries are built, so the spec's example slice rendered
through that pipeline produces the expected text. -/
theorem format_page_amended_spec (entries : List (String × Option String)) :
    format_page entries =
      (match entries with
       | [] => "No guilds were found."
       | _ :: _ => joinBlank (entries.map (fun e => e.1 ++ ": " ++ pyShowInvite e.2))) ∧
    format_page (serversEntries [("Alpha", ["http://inv/1"]), ("Beta", [])]) =
      "Alpha: http://inv/1\n\nBeta: No invite available" := by
  constructor
  · cases entries with
    | nil => rfl
    | cons e es =>
      simp only [format_page]
      rw [if_neg (joinBlank_line_ne_empty e es)]
  · rfl

/-- Claim C6 counterexample: the formatter itself renders a null invite
field as `Beta: None`, not `Beta: No invite available`, and the
src/menu.py variant raises on any non-empty slice. -/
theorem format_page_null_invite_cex :
    format_page [("Beta", none)] = "Beta: None" ∧
    format_page [("Beta", none)] ≠ "Beta: No invite available" ∧
    menuFormatPage [("Beta", none)] = Except.error () :=
  ⟨rfl, by decide, rfl⟩

/-- Claim C3: the (spec-modelled) list page source fails with OutOfRange
for every non-empty collection when the requested page is negative or
`pageNumber * perPage` reaches the item count. -/
theorem get_page_out_of_range (items : List Nat) (p : Nat) (n : Int)
    (hne : 0 < items.length)
    (hout : n < 0 ∨ (items.length : Int) ≤ n * p) :
    ListPageSource.get_page items p n = Except.error PageError.outOfRange := by
  unfold ListPageSource.get_page
  rw [if_pos]
  rcases hout with h | h
  · exact Or.inl h
  · exact Or.inr ⟨h, hne⟩

/-- Claim C3 witness: with 12 items and perPage 5, page 0 is items[0:5],
page 2 is items[10:12], page 3 fails OutOfRange (via the theorem), and the
page count is 3. -/
theorem get_page_out_of_range_witness :
    ListPageSource.get_page items12 5 3 = Except.error PageError.outOfRange ∧
    ListPageSource.get_page items12 5 0 = Except.ok [0, 1, 2, 3, 4] ∧
    ListPageSource.get_page items12 5 2 = Except.ok [10, 11] ∧
    ListPageSource.get_max_pages items12 5 = 3 :=
  ⟨get_page_out_of_range items12 5 3 (by decide) (Or.inr (by decide)),
   rfl, rfl, rfl⟩

/-- Claim C4: for every item count and positive page size, the
(spec-modelled) page count is the ceiling of `n / perPage` — stated both
as `⌈/⌉` and by the least-upper-bound characterization — and the empty
collection has page count 0 while page 0 of it is an empty slice, not an
error. -/
theorem get_max_pages_ceil (n p : Nat) (hp : 1 ≤ p) :
    ListPageSource.get_max_pages (List.replicate n (0 : Nat)) p = n ⌈/⌉ p ∧
    n ≤ ListPageSource.get_max_pages (List.replicate n (0 : Nat)) p * p ∧
    (∀ k, n ≤ k * p → ListPageSource.get_max_pages (List.replicate n (0 : Nat)) p ≤ k) ∧
    ListPageSource.get_max_pages ([] : List Nat) p = 0 ∧
    ListPageSource.get_page ([] : List Nat) p 0 = Except.ok [] := by
  have hp0 : 0 < p := hp
  refine ⟨?_, ?_, ?_, ?_, ?_⟩
  · simp [ListPageSource.get_max_pages, Nat.ceilDiv_eq_add_pred_div]
  · simp only [ListPageSource.get_max_pages, List.length_replicate]
    rw [Nat.mul_comm]
    have h1 := Nat.div_add_mod (n + p - 1) p
    have h2 := Nat.mod_lt (n + p - 1) hp0
    generalize p * ((n + p - 1) / p) = t at h1 ⊢
    omega
  · intro k hk
    simp only [ListPageSource.get_max_pages, List.length_replicate]
    rw [Nat.mul_comm k p] at hk
    exact (Nat.div_le_iff_le_mul_add_pred hp0).mpr (by omega)
  · simp only [ListPageSource.get_max_pages, List.length_nil]
    exact Nat.div_eq_of_lt (by omega)
  · simp [ListPageSource.get_page]

/-- Claim C4 witness: 12 items with perPage 5 give 3 pages, matching the
ceiling bound; the empty collection has 0 pages and an error-free empty
page 0. -/
theorem get_max_pages_ceil_witness :
    ListPageSource.get_max_pages (List.replicate 12 (0 : Nat)) 5 = 12 ⌈/⌉ 5 ∧
    ListPageSource.get_max_pages ([] : List Nat) 5 = 0 ∧
    ListPageSource.get_page ([] : List Nat) 5 0 = Except.ok [] :=
  ⟨(get_max_pages_ceil 12 5 (by decide)).1,
   (get_max_pages_ceil 12 5 (by decide)).2.2.2.1,
   (get_max_pages_ceil 12 5 (by decide)).2.2.2.2⟩

theorem show_page_ok_currentPage (src : Source) (compact responseDone : Bool)
    (st : ViewState) (n : Int) (r : ViewState × List Effect)
    (h : show_page src compact responseDone st n = Except.ok r) :
    r.1.currentPage = n := by
  unfold show_page at h
  cases hg : src.getPage n with
  | error e => rw [hg] at h; cases h
  | ok page =>
    rw [hg] at h
    simp only at h
    repeat' split at h
    all_goals (injection h with h2; subst h2; rfl)

/-- Claim C2: with a known page count, `show_checked_page` on a target
outside `[0, pageCount-1]` leaves the state untouched and emits nothing;
with an unknown page count, any `n >= 0` whose page fetch succeeds
performs the jump to `n`. -/
theorem show_checked_page_bounds (src : Source) (compact responseDone : Bool)
    (st : ViewState) (n : Int) :
    (∀ m, src.maxPages = some m → ¬ (0 ≤ n ∧ n < m) →
      show_checked_page src compact responseDone st n = (st, [])) ∧
    (src.maxPages = none → 0 ≤ n →
      isOkE (show_page src compact responseDone st n) = true →
      (show_checked_page src compact responseDone st n).1.currentPage = n) := by
  constructor
  · intro m hm hnot
    simp only [show_checked_page, hm]
    rw [if_neg (fun hc => hnot ⟨hc.2, hc.1⟩)]
  · intro hm h0 hok
    simp only [show_checked_page, hm]
    cases hsp : show_page src compact responseDone st n with
    | error e => rw [hsp] at hok; simp [isOkE] at hok
    | ok r =>
      exact show_page_ok_currentPage src compact responseDone st n r hsp

/-- Claim C2 witness: with pageCount 3, the jump to page 5 is a silent
no-op; with an unknown pageCount, the jump to page 2 lands on page 2. -/
theorem show_checked_page_bounds_witness :
    show_checked_page srcK false false st0 5 = (st0, []) ∧
    (show_checked_page srcN false false st0 2).1.currentPage = 2 :=
  ⟨(show_checked_page_bounds srcK false false st0 5).1 3 rfl (by decide),
   (show_checked_page_bounds srcN false false st0 2).2 rfl (by decide) rfl⟩

/-- Claim C7: a button interaction passes the check exactly when the
acting user's id equals the id fixed at session creation (the invoking
context's author/user), and every rejection leaves the state unchanged and
emits exactly the ephemeral denial. -/
theorem interaction_check_authorizes_owner (inv : Invoker) (st : ViewState) (u : Nat) :
    ((interaction_check inv st (some u)).1 = true ↔ u = predicateId inv) ∧
    (∀ a : Option Nat, (interaction_check inv st a).1 = false →
      (interaction_check inv st a).2.1 = st ∧
      (interaction_check inv st a).2.2 = [Effect.ephemeralMsg "This menu is not for you."]) := by
  constructor
  · by_cases h : u = predicateId inv <;> simp [interaction_check, h]
  · intro a ha
    cases a with
    | none => simp [interaction_check]
    | some v =>
      by_cases h : v = predicateId inv
      · simp [interaction_check, h] at ha
      · simp [interaction_check, h]

/-- Claim C7 witness: user 7 is rejected by the session fixed on user 5
with an unchanged state and the denial message, while user 5 passes. -/
theorem interaction_check_authorizes_owner_witness :
    (interaction_check (Invoker.ctxInv 5) st0 (some 7)).2.1 = st0 ∧
    (interaction_check (Invoker.ctxInv 5) st0 (some 7)).2.2 =
      [Effect.ephemeralMsg "This menu is not for you."] ∧
    (interaction_check (Invoker.ctxInv 5) st0 (some 5)).1 = true :=
  ⟨((interaction_check_authorizes_owner (Invoker.ctxInv 5) st0 7).2 (some 7) rfl).1,
   ((interaction_check_authorizes_owner (Invoker.ctxInv 5) st0 7).2 (some 7) rfl).2,
   (interaction_check_authorizes_owner (Invoker.ctxInv 5) st0 5).1.mpr rfl⟩

/-- Claim C8: on timeout with a live message every attached control is
disabled and the message is re-edited (view only, not deleted, handle
kept); without a live message the handler is a no-op; and a timeout firing
after stop() has completed dispatches nothing. -/
theorem on_timeout_disables_and_noop (isPag compact : Bool) (st : ViewState) :
    (st.message = none → on_timeout (fill_items isPag compact) st = (st, [])) ∧
    (st.message.isSome = true →
      (∀ c, c ∈ fill_items isPag compact →
        getDisabled (on_timeout (fill_items isPag compact) st).1.buttons c = true) ∧
      (on_timeout (fill_items isPag compact) st).1.message = st.message ∧
      (on_timeout (fill_items isPag compact) st).2 = [Effect.editViewOnly]) ∧
    timeoutFires (fill_items isPag compact) (stop_pages st).1 = ((stop_pages st).1, []) := by
  refine ⟨?_, ?_, ?_⟩
  · intro h
    simp [on_timeout, h]
  · intro h
    obtain ⟨m, hm⟩ := Option.isSome_iff_exists.mp h
    refine ⟨?_, ?_, ?_⟩
    · intro c hc
      simp only [on_timeout, hm]
      exact disableChildren_mem (fill_items isPag compact) st.buttons c hc
    · simp [on_timeout, hm]
    · simp [on_timeout, hm]
  · simp [timeoutFires, stop_pages]

/-- Claim C8 witness: with a live message, the timeout disables the stop
control and edits the view only; after stop_pages, a firing timeout does
nothing. -/
theorem on_timeout_disables_and_noop_witness :
    getDisabled (on_timeout (fill_items true false) stM).1.buttons ControlId.stopBtn = true ∧
    (on_timeout (fill_items true false) stM).2 = [Effect.editViewOnly] ∧
    timeoutFires (fill_items true false) (stop_pages stM).1 = ((stop_pages stM).1, []) :=
  ⟨((on_timeout_disables_and_noop true false stM).2.1 rfl).1 ControlId.stopBtn (by decide),
   ((on_timeout_disables_and_noop true false stM).2.1 rfl).2.2,
   (on_timeout_disables_and_noop true false stM).2.2⟩

/-- Claim C1 (code bug): starting from a Context-based invocation that
lacks the embed permission, the code emits the ephemeral denial and then —
the Context branch of `start` has no `return` — still renders page 0 and
creates the live message: exactly one denial, exactly one live send, and
the message handle is recorded, contradicting the never-both contract. -/
theorem start_context_denied_sends_both :
    ((start (Invoker.ctxInv 9) true false false srcK false none st0).toOption.map
      (fun r => (r.2.countP (fun e => isPermDenial e),
                 r.2.countP (fun e => isLiveSend e),
                 r.1.message.isSome)))
      = some (1, 1, true) := rfl

/-- Claim C10 (amended): the caller-supplied start content lands in the
kwargs exactly when the kwargs built from the page value lack a `content`
key — a mapping without that key, or a value outside the recognized
variants (whose kwargs are empty); a string or embed value always
populates `content` (possibly with null), so the caller content is
silently dropped. -/
theorem start_content_inclusion (v : PageValue) (c : String) :
    ((getKwargsFromPage v).content = none ↔
      ((∃ k, v = PageValue.dict k ∧ k.content = none) ∨ v = PageValue.other)) ∧
    (c ≠ "" → (getKwargsFromPage v).content = none →
      applyStartContent (some c) (getKwargsFromPage v) =
        { getKwargsFromPage v with content := some (some c) }) ∧
    ((getKwargsFromPage v).content.isSome = true →
      applyStartContent (some c) (getKwargsFromPage v) = getKwargsFromPage v) ∧
    (∀ s, v = PageValue.str s → (getKwargsFromPage v).content = some (some s)) ∧
    (∀ e, v = PageValue.embed e → (getKwargsFromPage v).content = some none) := by
  refine ⟨?_, ?_, ?_, ?_, ?_⟩
  · cases v <;> simp [getKwargsFromPage]
  · intro hc hnone
    simp only [applyStartContent, if_neg hc, setdefaultContent, hnone]
  · intro hsome
    obtain ⟨x, hx⟩ := Option.isSome_iff_exists.mp hsome
    simp only [applyStartContent, setdefaultContent, hx]
    split <;> rfl
  · intro s hs
    subst hs
    rfl
  · intro e he
    subst he
    rfl

/-- Claim C10 witness: a mapping without a content key receives the caller
content. -/
theorem start_content_inclusion_witness :
    applyStartContent (some "extra") (getKwargsFromPage (PageValue.dict {})) =
      { content := some (some "extra"), embedKw := none } := by
  have h := (start_content_inclusion (PageValue.dict {}) "extra").2.1 (by decide) rfl
  simpa [getKwargsFromPage] using h

/-- Claim C10 counterexample: when format_page returns a value outside the
recognized variants, the kwargs are empty and the caller content is
included although the value is not a mapping. -/
theorem start_content_dropped_cex :
    (applyStartContent (some "extra") (getKwargsFromPage PageValue.other)).content =
      some (some "extra") ∧
    PageValue.other.isDict = false :=
  ⟨rfl, rfl⟩
